import Mathlib

/-!
Verification of the availability-classification and orchestration logic of the
Joffre-Monitor scripts (`Joffrey_Lake.py` with class `MultiParkMonitor`, and
`all_park_monitor.py` with class `JoffreThreeDaysMonitor`).

Page texts, keywords and indicator phrases are modelled as `List Char`
(the lowercased `soup.get_text().lower()` string); the Python substring test
`needle in haystack` is modelled by `containsSub`.
-/

/-- Python's `needle in haystack` substring test on character lists. -/
def containsSub (needle : List Char) : List Char → Bool
  | [] => needle.isEmpty
  | c :: t => needle.isPrefixOf (c :: t) || containsSub needle t

/-- The four classification outcomes of `parse_for_park_availability` /
`parse_for_joffre_availability` (AVAILABLE = notify-and-return-True branch,
UNAVAILABLE = the `elif has_unavailable_text` branch, UNCLEAR = the final
`else` branch, NOT_THIS_PARK = the early `if not has_park_content` return). -/
inductive Verdict
  | AVAILABLE
  | UNAVAILABLE
  | UNCLEAR
  | NOT_THIS_PARK
deriving DecidableEq

/-- The Telegram message sent on the AVAILABLE branch: it embeds the source
URL, the display form of the target date, and `found_availability[:2]`. -/
structure Notification where
  sourceUrl : List Char
  displayDate : List Char
  indicators : List (List Char)
deriving DecidableEq

/-- What one call of the classifier produces: the verdict, the returned
boolean, the (logged-only) `has_target_date` evidence bit, and the
notification sent, if any. -/
structure ParseOutcome where
  verdict : Verdict
  result : Bool
  hasTargetDate : Bool
  notification : Option Notification
deriving DecidableEq

/-- The fixed `availability_indicators` list (identical in both scripts). -/
def availability_indicators : List (List Char) :=
  ["available".data, "book now".data, "reserve now".data, "select date".data,
   "choose date".data, "select time".data, "purchase".data, "add to cart".data,
   "book online".data, "reservation available".data, "make reservation".data,
   "day use pass".data, "day pass available".data, "passes available".data,
   "book this date".data, "available for booking".data, "reserve this date".data]

/-- The fixed `unavailable_indicators` list (identical in both scripts). -/
def unavailable_indicators : List (List Char) :=
  ["sold out".data, "fully booked".data, "no availability".data, "unavailable".data,
   "no passes available".data, "booking closed".data, "not available".data,
   "waitlist only".data, "no day use passes".data, "passes sold out".data,
   "date unavailable".data, "not accepting reservations".data, "fully reserved".data]

/-- `has_park_content = any(keyword in page_text for keyword in keywords)`. -/
def has_park_content (keywords : List (List Char)) (page_text : List Char) : Bool :=
  keywords.any (fun k => containsSub k page_text)

/-- `has_target_date = any(date_keyword in page_text for date_keyword in date_keywords)`. -/
def has_target_date (dateKeywords : List (List Char)) (page_text : List Char) : Bool :=
  dateKeywords.any (fun k => containsSub k page_text)

/-- `found_availability = [ind for ind in availability_indicators if ind in page_text]`. -/
def found_availability (page_text : List Char) : List (List Char) :=
  availability_indicators.filter (fun ind => containsSub ind page_text)

/-- `found_unavailable = [ind for ind in unavailable_indicators if ind in page_text]`. -/
def found_unavailable (page_text : List Char) : List (List Char) :=
  unavailable_indicators.filter (fun ind => containsSub ind page_text)

/-- A target date, carried only through its textual renderings
(the `strftime` outputs the scripts compute from it). -/
structure TargetDate where
  iso_date : List Char
  monthDayLong : List Char
  monthDayAbbrev : List Char
  dayMonthLong : List Char
  monthSlashDay : List Char
  dayOfMonth : List Char
  display_date : List Char
  day_name : List Char

/-- The `date_keywords` list of `Joffrey_Lake.py` (ISO, `%B %d`, `%b %d`, `%m/%d`). -/
def date_keywords (d : TargetDate) : List (List Char) :=
  [d.iso_date, d.monthDayLong, d.monthDayAbbrev, d.monthSlashDay]

/-- The `date_keywords` list of `all_park_monitor.py` (adds `%d %B` and `%-d`). -/
def joffre_date_keywords (d : TargetDate) : List (List Char) :=
  [d.iso_date, d.monthDayLong, d.monthDayAbbrev, d.dayMonthLong, d.monthSlashDay, d.dayOfMonth]

/-- The body of `parse_for_park_availability` / `parse_for_joffre_availability`
after text extraction: the relevance gate, then
`if (has_availability_text or has_interactive_elements) and not has_unavailable_text`
(the AVAILABLE branch, sending one notification and returning True), then
`elif has_unavailable_text` (UNAVAILABLE), else UNCLEAR; every non-AVAILABLE
branch returns False and sends nothing. -/
def parse_for_park_availability (page_text : List Char) (keywords : List (List Char))
    (has_interactive_elements : Bool) (dateKeywords : List (List Char))
    (source_url : List Char) (display_date : List Char) : ParseOutcome :=
  if has_park_content keywords page_text = false then
    ⟨.NOT_THIS_PARK, false, has_target_date dateKeywords page_text, none⟩
  else if (!(found_availability page_text).isEmpty || has_interactive_elements)
      && (found_unavailable page_text).isEmpty then
    ⟨.AVAILABLE, true, has_target_date dateKeywords page_text,
      some ⟨source_url, display_date, (found_availability page_text).take 2⟩⟩
  else if !(found_unavailable page_text).isEmpty then
    ⟨.UNAVAILABLE, false, has_target_date dateKeywords page_text, none⟩
  else
    ⟨.UNCLEAR, false, has_target_date dateKeywords page_text, none⟩

/-- The `joffre_keywords` / park registry keywords for Joffre Lakes. -/
def joffre_keywords : List (List Char) := ["joffre".data, "joffrey".data]

/-- Helper: a matching unavailability phrase makes `found_unavailable` nonempty. -/
theorem found_unavailable_ne_nil {page_text ind : List Char}
    (hmem : ind ∈ unavailable_indicators) (hc : containsSub ind page_text = true) :
    (found_unavailable page_text).isEmpty = false := by
  have : ind ∈ found_unavailable page_text := by
    simp only [found_unavailable, List.mem_filter]
    exact ⟨hmem, hc⟩
  cases h : found_unavailable page_text with
  | nil => rw [h] at this; cases this
  | cons a l => simp [List.isEmpty]

/-- Helper: a matching availability phrase makes `found_availability` nonempty. -/
theorem found_availability_ne_nil {page_text ind : List Char}
    (hmem : ind ∈ availability_indicators) (hc : containsSub ind page_text = true) :
    (found_availability page_text).isEmpty = false := by
  have : ind ∈ found_availability page_text := by
    simp only [found_availability, List.mem_filter]
    exact ⟨hmem, hc⟩
  cases h : found_availability page_text with
  | nil => rw [h] at this; cases this
  | cons a l => simp [List.isEmpty]

/-- C1: when the page mentions the park and both an availability phrase and an
unavailability phrase match as substrings, the classifier never yields
AVAILABLE: the verdict is UNAVAILABLE or UNCLEAR, the returned boolean is
false, and no notification is sent. -/
theorem c1_mixed_signals_never_available
    (page_text : List Char) (keywords dateKeywords : List (List Char))
    (has_interactive_elements : Bool) (source_url display_date : List Char)
    (hpark : has_park_content keywords page_text = true)
    (ha : ∃ ind ∈ availability_indicators, containsSub ind page_text = true)
    (hu : ∃ ind ∈ unavailable_indicators, containsSub ind page_text = true) :
    ((parse_for_park_availability page_text keywords has_interactive_elements
        dateKeywords source_url display_date).verdict = .UNAVAILABLE ∨
     (parse_for_park_availability page_text keywords has_interactive_elements
        dateKeywords source_url display_date).verdict = .UNCLEAR) ∧
    (parse_for_park_availability page_text keywords has_interactive_elements
        dateKeywords source_url display_date).result = false ∧
    (parse_for_park_availability page_text keywords has_interactive_elements
        dateKeywords source_url display_date).notification = none := by
  obtain ⟨ind, hmem, hc⟩ := hu
  have hfu := found_unavailable_ne_nil hmem hc
  simp [parse_for_park_availability, hpark, hfu]

/-- C2: when no park keyword occurs as a substring of the page text, the
classifier returns NOT_THIS_PARK with a false result and no notification,
regardless of any other content of the page. -/
theorem c2_no_keyword_not_this_park
    (page_text : List Char) (keywords dateKeywords : List (List Char))
    (has_interactive_elements : Bool) (source_url display_date : List Char)
    (hk : ∀ k ∈ keywords, containsSub k page_text = false) :
    (parse_for_park_availability page_text keywords has_interactive_elements
        dateKeywords source_url display_date).verdict = .NOT_THIS_PARK ∧
    (parse_for_park_availability page_text keywords has_interactive_elements
        dateKeywords source_url display_date).result = false ∧
    (parse_for_park_availability page_text keywords has_interactive_elements
        dateKeywords source_url display_date).notification = none := by
  have hpark : has_park_content keywords page_text = false := by
    simp only [has_park_content, List.any_eq_false]
    intro k hkmem
    simp [hk k hkmem]
  simp [parse_for_park_availability, hpark]

/-- C3: when the page mentions the park, at least one availability phrase
matches and no unavailability phrase matches, the classifier returns
AVAILABLE (true) and sends exactly one notification carrying the source URL
and at most two of the matched availability phrases. -/
theorem c3_clean_availability_notifies
    (page_text : List Char) (keywords dateKeywords : List (List Char))
    (has_interactive_elements : Bool) (source_url display_date : List Char)
    (hpark : has_park_content keywords page_text = true)
    (ha : ∃ ind ∈ availability_indicators, containsSub ind page_text = true)
    (hu : ∀ ind ∈ unavailable_indicators, containsSub ind page_text = false) :
    (parse_for_park_availability page_text keywords has_interactive_elements
        dateKeywords source_url display_date).verdict = .AVAILABLE ∧
    (parse_for_park_availability page_text keywords has_interactive_elements
        dateKeywords source_url display_date).result = true ∧
    (parse_for_park_availability page_text keywords has_interactive_elements
        dateKeywords source_url display_date).notification =
      some ⟨source_url, display_date, (found_availability page_text).take 2⟩ ∧
    ((found_availability page_text).take 2).length ≤ 2 ∧
    (∀ x ∈ (found_availability page_text).take 2, x ∈ found_availability page_text) := by
  obtain ⟨ind, hmem, hc⟩ := ha
  have hfa := found_availability_ne_nil hmem hc
  have hfu : found_unavailable page_text = [] := by
    simp only [found_unavailable, List.filter_eq_nil_iff]
    intro a hamem
    simp [hu a hamem]
  refine ⟨?_, ?_, ?_, ?_, ?_⟩
  · simp [parse_for_park_availability, hpark, hfa, hfu]
  · simp [parse_for_park_availability, hpark, hfa, hfu]
  · simp [parse_for_park_availability, hpark, hfa, hfu]
  · simp [List.length_take_le 2 (found_availability page_text)]
  · intro x hx
    exact List.mem_of_mem_take hx

/-- C4: the verdict and the returned boolean do not depend on the target
date: for any two target dates (under either script's date-keyword list) the
classifier decides identically, and the date match is only recorded in the
`hasTargetDate` evidence field. -/
theorem c4_date_never_gates_decision
    (page_text : List Char) (keywords : List (List Char))
    (has_interactive_elements : Bool) (source_url : List Char)
    (d1 d2 : TargetDate) :
    ((parse_for_park_availability page_text keywords has_interactive_elements
        (date_keywords d1) source_url d1.display_date).verdict =
     (parse_for_park_availability page_text keywords has_interactive_elements
        (date_keywords d2) source_url d2.display_date).verdict) ∧
    ((parse_for_park_availability page_text keywords has_interactive_elements
        (date_keywords d1) source_url d1.display_date).result =
     (parse_for_park_availability page_text keywords has_interactive_elements
        (date_keywords d2) source_url d2.display_date).result) ∧
    ((parse_for_park_availability page_text keywords has_interactive_elements
        (joffre_date_keywords d1) source_url d1.display_date).verdict =
     (parse_for_park_availability page_text keywords has_interactive_elements
        (joffre_date_keywords d2) source_url d2.display_date).verdict) ∧
    ((parse_for_park_availability page_text keywords has_interactive_elements
        (joffre_date_keywords d1) source_url d1.display_date).result =
     (parse_for_park_availability page_text keywords has_interactive_elements
        (joffre_date_keywords d2) source_url d2.display_date).result) ∧
    ((parse_for_park_availability page_text keywords has_interactive_elements
        (date_keywords d1) source_url d1.display_date).hasTargetDate =
      has_target_date (date_keywords d1) page_text) := by
  refine ⟨?_, ?_, ?_, ?_, ?_⟩ <;>
    · simp only [parse_for_park_availability]
      split <;> (try rfl) <;> (split <;> (try rfl) <;> (split <;> rfl))

/-- The caller-observable part of a classifier call: the returned boolean and
the notification sent. -/
def observed (o : ParseOutcome) : Bool × Option Notification := (o.result, o.notification)

/-- The whole classifier body runs inside `try ... except`, which catches any
error (including a text-extraction failure, modelled by `soup = none`) and
returns False without sending anything. -/
def parse_total (soup : Option (List Char × Bool)) (keywords dateKeywords : List (List Char))
    (source_url display_date : List Char) : Bool × Option Notification :=
  match soup with
  | some (page_text, inter) =>
      observed (parse_for_park_availability page_text keywords inter dateKeywords
        source_url display_date)
  | none => (false, none)

/-- C9: a parse failure never raises; it yields exactly the observable result
of classifying an empty page text, which (for nonempty park keywords) is
NOT_THIS_PARK: a false result with no notification. -/
theorem c9_parse_failure_degrades_like_empty_page
    (keywords dateKeywords : List (List Char)) (source_url display_date : List Char)
    (hk : ∀ k ∈ keywords, k ≠ []) :
    parse_total none keywords dateKeywords source_url display_date
      = observed (parse_for_park_availability [] keywords false dateKeywords
          source_url display_date) ∧
    (parse_for_park_availability [] keywords false dateKeywords source_url
        display_date).verdict = .NOT_THIS_PARK ∧
    (parse_for_park_availability [] keywords false dateKeywords source_url
        display_date).result = false ∧
    (parse_for_park_availability [] keywords false dateKeywords source_url
        display_date).notification = none := by
  have hpark : has_park_content keywords [] = false := by
    simp only [has_park_content, List.any_eq_false]
    intro k hkmem
    have hne := hk k hkmem
    cases k with
    | nil => exact absurd rfl hne
    | cons c t => simp [containsSub]
  refine ⟨?_, ?_, ?_, ?_⟩ <;>
    simp [parse_total, observed, parse_for_park_availability, hpark]

/-- What one candidate URL produced: an HTTP response with a status code and
a text-extraction result (`none` models the extraction raising), or a raised
fetch exception / timeout. -/
inductive FetchResult
  | response (status : Nat) (soup : Option (List Char × Bool))
  | fetchError
deriving DecidableEq

/-- One iteration of the candidate-URL loop of `check_park_date_availability`
/ `check_single_date_availability`: the loop breaks on this URL exactly when
the response had status 200 and the classifier returned True. -/
def url_yields_available (keywords dateKeywords : List (List Char))
    (display_date : List Char) : List Char × FetchResult → Bool
  | (url, .response status soup) =>
      status == 200 && (parse_total soup keywords dateKeywords url display_date).1
  | (_, .fetchError) => false

/-- The candidate-URL loop of `check_park_date_availability` /
`check_single_date_availability`. Each processed list element corresponds to
exactly one `session.get` request; the returned pair is the availability
result and the number of requests issued. A non-200 status or a fetch
exception is logged and iteration continues; on the first AVAILABLE
classification the loop breaks. -/
def check_park_date_availability (keywords dateKeywords : List (List Char))
    (display_date : List Char) : List (List Char × FetchResult) → Bool × Nat
  | [] => (false, 0)
  | u :: rest =>
      if url_yields_available keywords dateKeywords display_date u then (true, 1)
      else
        ((check_park_date_availability keywords dateKeywords display_date rest).1,
         (check_park_date_availability keywords dateKeywords display_date rest).2 + 1)

/-- C5: once some candidate URL is classified AVAILABLE, no further request
is issued for the remaining URLs of the unit: the loop stops right there and
the unit's result is recorded as available. -/
theorem c5_stops_at_first_available
    (keywords dateKeywords : List (List Char)) (display_date : List Char)
    (pre : List (List Char × FetchResult)) (u : List Char × FetchResult)
    (rest : List (List Char × FetchResult))
    (hpre : ∀ x ∈ pre, url_yields_available keywords dateKeywords display_date x = false)
    (hu : url_yields_available keywords dateKeywords display_date u = true) :
    check_park_date_availability keywords dateKeywords display_date (pre ++ u :: rest)
      = (true, pre.length + 1) := by
  induction pre with
  | nil => simp [check_park_date_availability, hu]
  | cons a l ih =>
    have ha := hpre a (List.mem_cons_self a l)
    have ih' := ih (fun x hx => hpre x (List.mem_cons_of_mem a hx))
    simp [check_park_date_availability, ha, ih']

/-- A candidate URL that failed: a non-200 response or a raised fetch
exception. -/
def url_fails : FetchResult → Bool
  | .response status _ => status != 200
  | .fetchError => true

/-- C6: if every candidate URL of a unit fails, each failure only advances
the iteration (all URLs are requested), the unit's recorded result is
not-available, and the per-unit check returns normally. -/
theorem c6_all_failures_not_available
    (keywords dateKeywords : List (List Char)) (display_date : List Char)
    (urls : List (List Char × FetchResult))
    (hall : ∀ x ∈ urls, url_fails x.2 = true) :
    check_park_date_availability keywords dateKeywords display_date urls
      = (false, urls.length) := by
  induction urls with
  | nil => simp [check_park_date_availability]
  | cons a l ih =>
    have ha : url_yields_available keywords dateKeywords display_date a = false := by
      obtain ⟨url, r⟩ := a
      cases r with
      | response s soup =>
        have hs := hall (url, .response s soup) (List.mem_cons_self _ _)
        simp only [url_fails, bne_iff_ne, ne_eq] at hs
        simp [url_yields_available, hs]
      | fetchError => simp [url_yields_available]
    have ih' := ih (fun x hx => hall x (List.mem_cons_of_mem a hx))
    simp [check_park_date_availability, ha, ih']

/-- One unit row of the run result: the three per-date availability booleans
recorded for a park (`today`, `tomorrow`, `day_after`). -/
structure DayResults where
  today : Bool
  tomorrow : Bool
  day_after : Bool
deriving DecidableEq

/-- Whether any of the three dates of a park was recorded available. -/
def any_available (r : DayResults) : Bool := r.today || r.tomorrow || r.day_after

/-- `MultiParkMonitor.send_comprehensive_summary`: returns whether the summary
message is sent. Gates in source order: the 6..23 hour window, then
suppression when any park had an available date, then the summary-hour set
`[7, 14, 21]`. -/
def send_comprehensive_summary (current_hour : Nat) (results : List DayResults) : Bool :=
  if ¬(6 ≤ current_hour ∧ current_hour ≤ 23) then false
  else if results.any any_available then false
  else if current_hour ∉ ([7, 14, 21] : List Nat) then false
  else true

/-- `JoffreThreeDaysMonitor.send_summary_notification`: returns whether the
summary message is sent; inside the 6..23 window it is suppressed when any
date was available and otherwise sent only at hours `[7, 12, 19]`. -/
def send_summary_notification (current_hour : Nat) (r : DayResults) : Bool :=
  if 6 ≤ current_hour ∧ current_hour ≤ 23 then
    if any_available r then false
    else if current_hour ∈ ([7, 12, 19] : List Nat) then true
    else false
  else false

/-- C7: in both scripts, whenever some unit was recorded available, or the
current hour is outside the configured summary-hour set, no summary message
is sent. -/
theorem c7_summary_suppression
    (current_hour : Nat) (results : List DayResults) (r : DayResults)
    (h1 : results.any any_available = true ∨ current_hour ∉ ([7, 14, 21] : List Nat))
    (h2 : any_available r = true ∨ current_hour ∉ ([7, 12, 19] : List Nat)) :
    send_comprehensive_summary current_hour results = false ∧
    send_summary_notification current_hour r = false := by
  constructor
  · rcases h1 with h | h
    · simp [send_comprehensive_summary, h]
    · simp [send_comprehensive_summary, h]
  · rcases h2 with h | h
    · simp [send_summary_notification, h]
    · simp [send_summary_notification, h]

/-- Externally observable actions of the monitor process. -/
inductive ProcAction
  | getMe
  | sendMessage
  | pageGet (url : List Char)
  | logFatal (msg : List Char)
deriving DecidableEq

/-- Whether an action is network activity. -/
def isNetwork : ProcAction → Bool
  | .logFatal _ => false
  | _ => true

/-- Whether an action is a notification (a Telegram sendMessage post). -/
def isNotify : ProcAction → Bool
  | .sendMessage => true
  | _ => false

/-- Python truthiness of an `os.getenv` result: `None` and the empty string
are falsy. -/
def truthy : Option (List Char) → Bool
  | none => false
  | some s => !s.isEmpty

/-- A raised Python exception (here only the `ValueError` of `__init__`). -/
inductive PyError
  | valueError (msg : List Char)
deriving DecidableEq

/-- `test_telegram_connection`: one GET of the bot getMe endpoint; on a 200
response it also sends the startup message; every failure is caught
internally (`none` for the status models a raised request exception). -/
def test_telegram_connection (getMeStatus : Option Nat) : List ProcAction :=
  match getMeStatus with
  | none => [ProcAction.getMe]
  | some s => if s == 200 then [ProcAction.getMe, ProcAction.sendMessage] else [ProcAction.getMe]

/-- `MultiParkMonitor.__init__` / `JoffreThreeDaysMonitor.__init__`: reads
the two environment secrets, builds the HTTP session headers and the park
registry (no network), raises `ValueError("Missing Telegram credentials")`
when either secret is falsy, and only after that check runs the startup
connection test. Returns the actions performed and the raised error, if any. -/
def monitor_init (bot_token chat_id : Option (List Char)) (getMeStatus : Option Nat) :
    List ProcAction × Option PyError :=
  if truthy bot_token = false ∨ truthy chat_id = false then
    ([], some (.valueError "Missing Telegram credentials".data))
  else
    (test_telegram_connection getMeStatus, none)

/-- C8: when either required secret is absent from the environment, the
constructor raises the configuration error, and at that point no network
action has been performed (no connection test, no page fetch). -/
theorem c8_missing_secret_raises_before_network
    (bot_token chat_id : Option (List Char)) (getMeStatus : Option Nat)
    (h : bot_token = none ∨ chat_id = none) :
    (monitor_init bot_token chat_id getMeStatus).2
      = some (.valueError "Missing Telegram credentials".data) ∧
    (monitor_init bot_token chat_id getMeStatus).1 = [] ∧
    (monitor_init bot_token chat_id getMeStatus).1.all (fun a => !isNetwork a) = true := by
  have ht : truthy bot_token = false ∨ truthy chat_id = false := by
    rcases h with h | h
    · exact Or.inl (by simp [h, truthy])
    · exact Or.inr (by simp [h, truthy])
  simp [monitor_init, ht]

/-- `run_comprehensive_check`: runs its body (abstracted as the actions it
performed and the error it raised, if any) inside `try ... except`; the
`except` block catches any error, sends a single error notification when the
hour is in the 6..23 window, and never re-raises. -/
def run_comprehensive_check (body : List ProcAction × Option PyError) (current_hour : Nat) :
    List ProcAction × Option PyError :=
  match body.2 with
  | some _ =>
      (body.1 ++ (if 6 ≤ current_hour ∧ current_hour ≤ 23 then [ProcAction.sendMessage] else []),
       none)
  | none => (body.1, none)

/-- `main`: constructs the monitor and runs the comprehensive check inside a
`try`; any exception (including the construction-time `ValueError`) is
caught, printed and logged, and never re-raised. -/
def script_main (bot_token chat_id : Option (List Char)) (getMeStatus : Option Nat)
    (body : List ProcAction × Option PyError) (current_hour : Nat) :
    List ProcAction × Option PyError :=
  match monitor_init bot_token chat_id getMeStatus with
  | (acts, some (.valueError m)) => (acts ++ [ProcAction.logFatal m], none)
  | (acts, none) =>
      match run_comprehensive_check body current_hour with
      | (acts2, some (.valueError m)) => (acts ++ acts2 ++ [ProcAction.logFatal m], none)
      | (acts2, none) => (acts ++ acts2, none)

/-- C10: `main` swallows every escaping exception, so it always completes
normally; on the construction-failure path (a missing secret) the only
action is the fatal-error log: in particular no notification of any kind is
sent. -/
theorem c10_script_main_swallows_all_errors
    (bot_token chat_id : Option (List Char)) (getMeStatus : Option Nat)
    (body : List ProcAction × Option PyError) (current_hour : Nat) :
    (script_main bot_token chat_id getMeStatus body current_hour).2 = none ∧
    ((bot_token = none ∨ chat_id = none) →
      (script_main bot_token chat_id getMeStatus body current_hour).1
        = [ProcAction.logFatal "Missing Telegram credentials".data] ∧
      (script_main bot_token chat_id getMeStatus body current_hour).1.all
        (fun a => !isNotify a) = true) := by
  constructor
  · simp only [script_main]
    split
    · rfl
    · split <;> rfl
  · intro h
    have ht : truthy bot_token = false ∨ truthy chat_id = false := by
      rcases h with h | h
      · exact Or.inl (by simp [h, truthy])
      · exact Or.inr (by simp [h, truthy])
    have hinit : monitor_init bot_token chat_id getMeStatus
        = ([], some (.valueError "Missing Telegram credentials".data)) := by
      simp [monitor_init, ht]
    simp [script_main, hinit, isNotify]

/-- Witness for C1 on a concrete page carrying both kinds of phrase. -/
theorem c1_witness :
    ((parse_for_park_availability "joffre lake available sold out".data joffre_keywords
        false [] "u".data "d".data).verdict = .UNAVAILABLE ∨
     (parse_for_park_availability "joffre lake available sold out".data joffre_keywords
        false [] "u".data "d".data).verdict = .UNCLEAR) ∧
    (parse_for_park_availability "joffre lake available sold out".data joffre_keywords
        false [] "u".data "d".data).result = false ∧
    (parse_for_park_availability "joffre lake available sold out".data joffre_keywords
        false [] "u".data "d".data).notification = none :=
  c1_mixed_signals_never_available _ _ _ _ _ _ (by decide) (by decide) (by decide)

/-- Witness for C2 on a concrete page about another park. -/
theorem c2_witness :
    (parse_for_park_availability "garibaldi passes available".data joffre_keywords
        true [] "u".data "d".data).verdict = .NOT_THIS_PARK ∧
    (parse_for_park_availability "garibaldi passes available".data joffre_keywords
        true [] "u".data "d".data).result = false ∧
    (parse_for_park_availability "garibaldi passes available".data joffre_keywords
        true [] "u".data "d".data).notification = none :=
  c2_no_keyword_not_this_park _ _ _ _ _ _ (by decide)

/-- Witness for C3 on a concrete clean-availability page. -/
theorem c3_witness :
    (parse_for_park_availability "joffre book now".data joffre_keywords
        false [] "u".data "d".data).verdict = .AVAILABLE ∧
    (parse_for_park_availability "joffre book now".data joffre_keywords
        false [] "u".data "d".data).result = true ∧
    (parse_for_park_availability "joffre book now".data joffre_keywords
        false [] "u".data "d".data).notification =
      some ⟨"u".data, "d".data, (found_availability "joffre book now".data).take 2⟩ ∧
    ((found_availability "joffre book now".data).take 2).length ≤ 2 ∧
    (∀ x ∈ (found_availability "joffre book now".data).take 2,
        x ∈ found_availability "joffre book now".data) :=
  c3_clean_availability_notifies _ _ _ _ _ _ (by decide) (by decide) (by decide)

/-- Witness for C5 on a concrete unit whose second URL is the first AVAILABLE. -/
theorem c5_witness :
    check_park_date_availability joffre_keywords [] "d".data
      [("u1".data, .fetchError),
       ("u2".data, .response 200 (some ("joffre book now".data, false))),
       ("u3".data, .response 200 (some ("joffre book now".data, false)))]
      = (true, 2) :=
  c5_stops_at_first_available joffre_keywords [] "d".data
    [("u1".data, .fetchError)]
    ("u2".data, .response 200 (some ("joffre book now".data, false)))
    [("u3".data, .response 200 (some ("joffre book now".data, false)))]
    (by decide) (by decide)

/-- Witness for C6 on a concrete unit where every URL fails. -/
theorem c6_witness :
    check_park_date_availability joffre_keywords [] "d".data
      [("u1".data, .fetchError), ("u2".data, .response 404 none)] = (false, 2) :=
  c6_all_failures_not_available joffre_keywords [] "d".data
    [("u1".data, .fetchError), ("u2".data, .response 404 none)] (by decide)

/-- Witness for C7 at hour 9 with one available unit / no available unit. -/
theorem c7_witness :
    send_comprehensive_summary 9 [⟨true, false, false⟩] = false ∧
    send_summary_notification 9 ⟨false, false, false⟩ = false :=
  c7_summary_suppression 9 [⟨true, false, false⟩] ⟨false, false, false⟩
    (Or.inl (by decide)) (Or.inr (by decide))

/-- Witness for C8 with the bot token absent. -/
theorem c8_witness :
    (monitor_init none (some "c".data) (some 200)).2
      = some (.valueError "Missing Telegram credentials".data) ∧
    (monitor_init none (some "c".data) (some 200)).1 = [] ∧
    (monitor_init none (some "c".data) (some 200)).1.all (fun a => !isNetwork a) = true :=
  c8_missing_secret_raises_before_network none (some "c".data) (some 200) (Or.inl rfl)

/-- Witness for C9 with the Joffre keywords. -/
theorem c9_witness :
    parse_total none joffre_keywords [] "u".data "d".data
      = observed (parse_for_park_availability [] joffre_keywords false [] "u".data "d".data) ∧
    (parse_for_park_availability [] joffre_keywords false [] "u".data
        "d".data).verdict = .NOT_THIS_PARK ∧
    (parse_for_park_availability [] joffre_keywords false [] "u".data
        "d".data).result = false ∧
    (parse_for_park_availability [] joffre_keywords false [] "u".data
        "d".data).notification = none :=
  c9_parse_failure_degrades_like_empty_page joffre_keywords [] "u".data "d".data (by decide)

/-- Witness for C10 with the bot token absent. -/
theorem c10_witness :
    (script_main none (some "c".data) (some 200) ([], none) 9).2 = none ∧
    (script_main none (some "c".data) (some 200) ([], none) 9).1
      = [ProcAction.logFatal "Missing Telegram credentials".data] ∧
    (script_main none (some "c".data) (some 200) ([], none) 9).1.all
      (fun a => !isNotify a) = true :=
  ⟨(c10_script_main_swallows_all_errors none (some "c".data) (some 200) ([], none) 9).1,
   (c10_script_main_swallows_all_errors none (some "c".data) (some 200) ([], none) 9).2
     (Or.inl rfl)⟩
